import Mathlib

/-!
Verification of the ADIv5-over-JTAG transaction engine and MemAP layer
(`src/lib.rs` of the jtag-adi crate) against its natural-language
specification.  The JTAG transport (the `jtag_taps` crate) is external to the
repository; it is modelled as an oracle: a list of DR scan responses that
`read_dr` / `read_write_dr` / `finish_dr_read` consume in order, a list of
booleans answering `queue_dr_read`, and a trace recording every shift the
engine performs.  Rust panics (`expect`, `assert!`, slice indexing out of
bounds) and oracle exhaustion are modelled as `none`; recoverable `Result`
errors are modelled with `Except Nat`.  Machine integers are `Nat` with
explicit `% 2 ^ w` where the Rust code can overflow or truncate.
-/

/-- Little-endian byte decoding: `u64::from_le_bytes`, generalised to any
byte list.  Bytes supplied by the modelled transport are below 256. -/
def fromLEBytes : List Nat → Nat
  | [] => 0
  | b :: bs => b + 256 * fromLEBytes bs

/-- Little-endian byte encoding of the low `n` bytes of a value, as produced
by `u64::to_le_bytes` followed by taking a prefix. -/
def toLEBytes : Nat → Nat → List Nat
  | 0, _ => []
  | n + 1, v => v % 256 :: toLEBytes n (v / 256)

/-- Shared 35-bit scan decoding used by `parse_ack`, `finish_read` and the
checked-write loop: push three zero bytes, read little-endian, mask to
35 bits (`val & ((1 << 35) - 1)` in the source). -/
def decode35 (dr : List Nat) : Nat :=
  fromLEBytes (dr ++ [0, 0, 0]) % 2 ^ 35

/-- Response constructor for the oracle: a 5-byte scan carrying data `d` in
bits 34..3 and acknowledge code `a` in bits 2..0. -/
def resp (a d : Nat) : List Nat :=
  toLEBytes 5 (d * 8 + a)

/-- JTAG IR opcode selecting the DP or AP register of the target TAP
(`Port` in the source, with `DP = 10` and `AP = 11`). -/
inductive Port where
  | DP
  | AP
deriving DecidableEq, Repr

def portIR : Port → Nat
  | Port.DP => 10
  | Port.AP => 11

/-- Transport events recorded by the model, one per scan primitive of the
external `jtag_taps` transport. -/
inductive Ev where
  | writeIR (ir : List Nat)
  | writeDR (bytes : List Nat) (extra : Nat)
  | readDR (bits : Nat)
  | readWriteDR (bytes : List Nat) (extra : Nat)
  | queueDRRead (bits : Nat)
  | finishDRRead (bits : Nat)
deriving DecidableEq, Repr

/-- Cached engine state: `lastbank` is the SELECT shadow, `lastir` the last
IR payload shifted (fields of `ArmDebugInterface`). -/
structure AdiState where
  lastbank : Nat
  lastir : List Nat
deriving DecidableEq, Repr

/-- Machine: engine caches plus the transport oracle (pending DR responses
and `queue_dr_read` answers) and the trace of performed scans. -/
structure Machine where
  adi : AdiState
  drResps : List (List Nat)
  queueOk : List Bool
  trace : List Ev
deriving DecidableEq, Repr

/-- Computation over the machine: `none` models a Rust panic or an
exhausted oracle, `Except.error e` a `Result::Err(e)` return. -/
def M (α : Type) : Type :=
  Machine → Option (Except Nat α × Machine)

def mPure {α : Type} (a : α) : M α :=
  fun m => some (Except.ok a, m)

def mBind {α β : Type} (x : M α) (f : α → M β) : M β :=
  fun m =>
    match x m with
    | none => none
    | some (Except.error e, m1) => some (Except.error e, m1)
    | some (Except.ok a, m1) => f a m1

instance : Monad M where
  pure := mPure
  bind := mBind

def throwAck {α : Type} (e : Nat) : M α :=
  fun m => some (Except.error e, m)

/-- Rust panic (a failed `expect`, `assert!` or out-of-bounds index). -/
def rustAbort {α : Type} : M α :=
  fun _ => none

def getAdi : M AdiState :=
  fun m => some (Except.ok m.adi, m)

def setLastir (ir : List Nat) : M Unit :=
  fun m => some (Except.ok (), { m with adi := { m.adi with lastir := ir } })

def setLastbank (b : Nat) : M Unit :=
  fun m => some (Except.ok (), { m with adi := { m.adi with lastbank := b } })

def emit (e : Ev) : M Unit :=
  fun m => some (Except.ok (), { m with trace := m.trace ++ [e] })

/-- Transport `write_ir`. -/
def tWriteIR (ir : List Nat) : M Unit :=
  emit (Ev.writeIR ir)

/-- Transport `write_dr`. -/
def tWriteDR (bytes : List Nat) (extra : Nat) : M Unit :=
  emit (Ev.writeDR bytes extra)

/-- Transport `read_dr`: consumes the next oracle response. -/
def tReadDR (bits : Nat) : M (List Nat) :=
  fun m =>
    match m.drResps with
    | [] => none
    | r :: rest =>
      some (Except.ok r,
        { m with drResps := rest, trace := m.trace ++ [Ev.readDR bits] })

/-- Transport `read_write_dr`: shifts out `bytes` while capturing the
incoming scan, consuming the next oracle response. -/
def tReadWriteDR (bytes : List Nat) (extra : Nat) : M (List Nat) :=
  fun m =>
    match m.drResps with
    | [] => none
    | r :: rest =>
      some (Except.ok r,
        { m with drResps := rest,
                 trace := m.trace ++ [Ev.readWriteDR bytes extra] })

/-- Transport `queue_dr_read`: consumes the next queue-capacity answer. -/
def tQueueDRRead (bits : Nat) : M Bool :=
  fun m =>
    match m.queueOk with
    | [] => none
    | b :: rest =>
      some (Except.ok b,
        { m with queueOk := rest, trace := m.trace ++ [Ev.queueDRRead bits] })

/-- Transport `finish_dr_read`: consumes the next oracle response. -/
def tFinishDRRead (bits : Nat) : M (List Nat) :=
  fun m =>
    match m.drResps with
    | [] => none
    | r :: rest =>
      some (Except.ok r,
        { m with drResps := rest,
                 trace := m.trace ++ [Ev.finishDRRead bits] })

/-- Cached IR shift (`ArmDebugInterface::write_ir`): shifts the IR only when
the payload differs from the cached one. -/
def write_ir (ir : List Nat) : M Unit := do
  let st ← getAdi
  if st.lastir = ir then pure ()
  else do
    tWriteIR ir
    setLastir ir

/-- ACK parsing of a captured scan (`ArmDebugInterface::parse_ack`). -/
def parse_ack (dr : List Nat) : Except Nat Nat :=
  let val := decode35 dr
  let ack := val % 8
  if ack = 2 then Except.ok (val / 8 % 2 ^ 32)
  else Except.error ack

/-- Queued read request (`queue_read_adi_nobank`): shifts the read-request
DR word and asks the transport to queue a 35-bit capture. -/
def queue_read_adi_nobank (port : Port) (reg : Nat) : M Bool := do
  write_ir [portIR port]
  tWriteDR [reg * 2 % 256 ||| 1, 0, 0, 0, 0] 3
  tQueueDRRead 35

/-- Drain of a queued read (`finish_read` on the engine). -/
def finish_read : M Nat := do
  let dr ← tFinishDRRead 35
  let val := decode35 dr
  let ack := val % 8
  if ack ≠ 2 then throwAck ack
  else pure (val / 8 % 2 ^ 32)

/-- Scalar register read assuming the bank is selected
(`read_adi_nobank`); the `assert!(result)` of the source is a panic when
the transport refuses to queue. -/
def read_adi_nobank (port : Port) (reg : Nat) : M Nat := do
  let result ← queue_read_adi_nobank port reg
  if result then finish_read else rustAbort

/-- Outgoing 35-bit write word: `val << 3 | (reg << 1) as u64` with `val`
first widened from u32 to u64 and `reg << 1` computed in u8. -/
def wire_write_word (reg val : Nat) : Nat :=
  val % 2 ^ 32 * 8 % 2 ^ 64 ||| reg * 2 % 256

/-- Body of the checked-write retry loop of `write_adi_nobank`.  Fuel only
bounds the iterations; callers pass one more than the number of pending
oracle responses, so fuel exhaustion is unreachable (the loop consumes one
response per iteration). -/
def write_checked_loop (ir bytes5 : List Nat) : Nat → M Unit
  | 0 => rustAbort
  | fuel + 1 => do
    write_ir ir
    tWriteDR bytes5 3
    let dr ← tReadDR 35
    let val := decode35 dr
    let ack := val % 8
    if ack = 2 then pure ()
    else if ack = 1 then write_checked_loop ir bytes5 fuel
    else throwAck ack

/-- Register write assuming the bank is selected (`write_adi_nobank`).
With `check = false` a single DR shift is performed and `Ok` returned;
with `check = true` the ACK is read back and the IR/DR/ACK sequence is
retried while the ACK is WAIT (1). -/
def write_adi_nobank (port : Port) (reg val : Nat) (check : Bool) : M Unit :=
  let ir := [portIR port]
  let bytes5 := toLEBytes 5 (wire_write_word reg val)
  if check then fun m => write_checked_loop ir bytes5 (m.drResps.length + 1) m
  else do
    write_ir ir
    tWriteDR bytes5 3

/-- Packed SELECT value `(apsel << 24) | (apbank << 4) | dpbank` in u32
arithmetic. -/
def select_pack (apsel apbank dpbank : Nat) : Nat :=
  apsel % 2 ^ 32 * 2 ^ 24 % 2 ^ 32 ||| apbank % 2 ^ 32 * 2 ^ 4 % 2 ^ 32 |||
    dpbank % 2 ^ 32

/-- Conversion of a `Result` failure into the panic of a Rust `expect`. -/
def expectOk {α : Type} (x : M α) : M α :=
  fun m =>
    match x m with
    | some (Except.error _, _) => none
    | r => r

/-- SELECT write with caching (`bank_select`): emits a checked DP.SELECT
write only when the packed value differs from `lastbank`, panicking on a
write failure (`expect("bank sel")`). -/
def bank_select (apsel apbank dpbank : Nat) : M Unit := do
  let v := select_pack apsel apbank dpbank
  let st ← getAdi
  if v ≠ st.lastbank then do
    expectOk (write_adi_nobank Port.DP 2 v true)
    setLastbank v
  else pure ()

/-- Scalar read of AP or DP register `reg` (`read_adi`): decomposes the
8-bit register address, selects banks with `dpbank = 0`, reads. -/
def read_adi (apsel : Nat) (port : Port) (reg : Nat) : M Nat := do
  bank_select apsel (reg % 256 / 4) 0
  read_adi_nobank port (reg % 4)

/-- Queued variant of `read_adi` (`queue_read_adi`). -/
def queue_read_adi (apsel : Nat) (port : Port) (reg : Nat) : M Bool := do
  bank_select apsel (reg % 256 / 4) 0
  queue_read_adi_nobank port (reg % 4)

/-- Checked scalar write (`write_adi`): selects banks with
`dpbank = apbank`, then performs a checked write. -/
def write_adi (apsel : Nat) (port : Port) (reg val : Nat) : M Unit := do
  bank_select apsel (reg % 256 / 4) (reg % 256 / 4)
  write_adi_nobank port (reg % 4) val true

/-- Unchecked scalar write (`write_adi_nocheck`). -/
def write_adi_nocheck (apsel : Nat) (port : Port) (reg val : Nat) : M Unit := do
  bank_select apsel (reg % 256 / 4) (reg % 256 / 4)
  write_adi_nobank port (reg % 4) val false

/-- Request word of a pipelined read: `((reg & 3) << 1) | 1` padded to five
bytes. -/
def rp_buf (r : Nat) : List Nat :=
  [r % 4 * 2 ||| 1, 0, 0, 0, 0]

/-- Loop body of `read_adi_pipelined` over `reg[1..]`: asserts that each
register shares the bank of `reg[0]`, overlaps the previous capture with
the next request, and aborts the whole call on the first non-OK ACK. -/
def rp_loop (bank0 : Nat) : List Nat → List Nat → M (List Nat)
  | [], acc => pure acc
  | r :: rs, acc => do
    if r % 256 / 4 = bank0 then do
      let dr ← tReadWriteDR (rp_buf r) 3
      match parse_ack dr with
      | Except.error e => throwAck e
      | Except.ok v => rp_loop bank0 rs (acc ++ [v])
    else rustAbort

/-- Pipelined multi-register read (`read_adi_pipelined`).  The empty list
panics on the `reg[0]` index. -/
def read_adi_pipelined (apsel : Nat) (port : Port) (reg : List Nat) :
    M (List Nat) :=
  match reg with
  | [] => rustAbort
  | r0 :: rest => do
    bank_select apsel (r0 % 256 / 4) 0
    write_ir [portIR port]
    tWriteDR (rp_buf r0) 3
    let acc ← rp_loop (r0 % 256 / 4) rest []
    let dr ← tReadDR 35
    match parse_ack dr with
    | Except.error e => throwAck e
    | Except.ok v => pure (acc ++ [v])

/-- Loop body of `write_adi_pipelined`: asserts the shared bank and shifts
the write DR word of every element, collecting no ACKs. -/
def wp_loop (bank0 : Nat) : List (Nat × Nat) → M Unit
  | [] => pure ()
  | rv :: rs => do
    if rv.1 % 256 / 4 = bank0 then do
      tWriteDR (toLEBytes 5 (rv.2 % 2 ^ 32 * 8 % 2 ^ 64 ||| rv.1 % 4 * 2)) 3
      wp_loop bank0 rs
    else rustAbort

/-- Pipelined multi-register write (`write_adi_pipelined`).  The empty list
panics on the `reg[0]` index; note the loop runs over the whole list,
first element included, and `bank_select` is called with `dpbank = 0`. -/
def write_adi_pipelined (apsel : Nat) (port : Port) (reg : List (Nat × Nat)) :
    M Unit :=
  match reg with
  | [] => rustAbort
  | rv0 :: _ => do
    bank_select apsel (rv0.1 % 256 / 4) 0
    write_ir [portIR port]
    wp_loop (rv0.1 % 256 / 4) reg

/-- Cache state installed by `ArmDebugInterface::new` before any wire
traffic: `lastbank = 0`, `lastir` empty. -/
def initAdiState : AdiState :=
  { lastbank := 0, lastir := [] }

/-- CTRL/STAT value written by the constructor:
`1 << 30 | 1 << 28 | 1 << 24 | 1 << 5 | 1 << 1`. -/
def ctrlstat_init : Nat :=
  2 ^ 30 ||| 2 ^ 28 ||| 2 ^ 24 ||| 2 ^ 5 ||| 2 ^ 1

/-- Wire activity of `ArmDebugInterface::new` after the caches are
initialised: a checked write of DP.Abort = 0 and a checked write of
DP.CtrlStat, each unwrapped with `expect`. -/
def adi_new : M Unit := do
  expectOk (write_adi_nobank Port.DP 0 0 true)
  expectOk (write_adi_nobank Port.DP 1 ctrlstat_init true)

/-- Fresh machine as built by the constructor, with the given oracle. -/
def mkMachine (resps : List (List Nat)) (qs : List Bool) : Machine :=
  { adi := initAdiState, drResps := resps, queueOk := qs, trace := [] }

/-- Cached MemAP state (`MemAP` fields `apsel`, `csw`, `tar`; the shared
`Rc<RefCell<ArmDebugInterface>>` is the `Machine` threaded alongside). -/
structure APState where
  apsel : Nat
  csw : Nat
  tar : Nat
deriving DecidableEq, Repr

/-- Computation over one MemAP plus the shared engine machine. -/
def MA (α : Type) : Type :=
  APState → Machine → Option (Except Nat α × APState × Machine)

def maPure {α : Type} (a : α) : MA α :=
  fun s m => some (Except.ok a, s, m)

def maBind {α β : Type} (x : MA α) (f : α → MA β) : MA β :=
  fun s m =>
    match x s m with
    | none => none
    | some (Except.error e, s1, m1) => some (Except.error e, s1, m1)
    | some (Except.ok a, s1, m1) => f a s1 m1

instance : Monad MA where
  pure := maPure
  bind := maBind

/-- Engine call through the shared cell (`self.adi.borrow_mut()`). -/
def liftAdi {α : Type} (x : M α) : MA α :=
  fun s m =>
    match x m with
    | none => none
    | some (r, m1) => some (r, s, m1)

def getAP : MA APState :=
  fun s m => some (Except.ok s, s, m)

def setCswCache (c : Nat) : MA Unit :=
  fun s m => some (Except.ok (), { s with csw := c }, m)

def setTarCache (t : Nat) : MA Unit :=
  fun s m => some (Except.ok (), { s with tar := t }, m)

def throwMA {α : Type} (e : Nat) : MA α :=
  fun s m => some (Except.error e, s, m)

/-- CSW write with caching (`MemAP::write_csw`): emits a checked AP write
of register 0 only when the value differs from the cache, and updates the
cache only after the write succeeded. -/
def MemAP_write_csw (csw : Nat) : MA Unit := do
  let s ← getAP
  if csw ≠ s.csw then do
    liftAdi (write_adi s.apsel Port.AP 0 csw)
    setCswCache csw
  else pure ()

/-- Single 32-bit read (`MemAP::read`): clear CSW bit 4, write TAR when the
cache differs, checked read of DRW (AP register 3), checked read of
DP.CtrlStat (DP register 1), failing with code 5 on sticky bits 0x5. -/
def MemAP_read (addr : Nat) : MA Nat := do
  let s0 ← getAP
  MemAP_write_csw (s0.csw &&& 4294967279)
  let s1 ← getAP
  if s1.tar ≠ addr then do
    liftAdi (write_adi s1.apsel Port.AP 1 addr)
    setTarCache addr
  else pure ()
  let s2 ← getAP
  let v ← liftAdi (read_adi s2.apsel Port.AP 3)
  let stat ← liftAdi (read_adi s2.apsel Port.DP 1)
  if stat &&& 5 ≠ 0 then throwMA 5
  else pure v

/-- Queued single read (`MemAP::queue_read`): unchecked TAR write, queued
DRW read, `Ok(false)` when the transport refuses to queue. -/
def MemAP_queue_read (addr : Nat) : MA Bool := do
  let s0 ← getAP
  MemAP_write_csw (s0.csw &&& 4294967279)
  let s1 ← getAP
  if s1.tar ≠ addr then do
    liftAdi (write_adi_nocheck s1.apsel Port.AP 1 addr)
    setTarCache addr
  else pure ()
  let s2 ← getAP
  let b ← liftAdi (queue_read_adi s2.apsel Port.AP 3)
  if !b then pure false
  else pure true

/-- Single 32-bit write (`MemAP::write`). -/
def MemAP_write (addr value : Nat) : MA Unit := do
  let s0 ← getAP
  MemAP_write_csw (s0.csw &&& 4294967279)
  let s1 ← getAP
  if s1.tar ≠ addr then do
    liftAdi (write_adi s1.apsel Port.AP 1 addr)
    setTarCache addr
  else pure ()
  let s2 ← getAP
  liftAdi (write_adi s2.apsel Port.AP 3 value)
  let stat ← liftAdi (read_adi s2.apsel Port.DP 1)
  if stat &&& 5 ≠ 0 then throwMA 5
  else pure ()

/-- Auto-incrementing burst read (`MemAP::read_block`): set CSW bit 4;
when the TAR cache differs from `addr`, write TAR and set the cache to
`addr + 4 * len` (u32); pipeline `len` DRW reads; optionally probe
CtrlStat. -/
def MemAP_read_block (addr len : Nat) (check_status : Bool) :
    MA (List Nat) := do
  let s0 ← getAP
  MemAP_write_csw (s0.csw ||| 16)
  let s1 ← getAP
  if s1.tar ≠ addr then do
    liftAdi (write_adi s1.apsel Port.AP 1 addr)
    setTarCache ((addr + 4 * len) % 2 ^ 32)
  else pure ()
  let s2 ← getAP
  let val ← liftAdi (read_adi_pipelined s2.apsel Port.AP (List.replicate len 3))
  if check_status then do
    let stat ← liftAdi (read_adi s2.apsel Port.DP 1)
    if stat &&& 5 ≠ 0 then throwMA 5
    else pure val
  else pure val

/-- Auto-incrementing burst write (`MemAP::write_block`). -/
def MemAP_write_block (addr : Nat) (data : List Nat) (check_status : Bool) :
    MA Unit := do
  let s0 ← getAP
  MemAP_write_csw (s0.csw ||| 16)
  let s1 ← getAP
  if s1.tar ≠ addr then do
    liftAdi (write_adi s1.apsel Port.AP 1 addr)
    setTarCache ((addr + 4 * data.length) % 2 ^ 32)
  else pure ()
  let s2 ← getAP
  liftAdi (write_adi_pipelined s2.apsel Port.AP (data.map (fun x => (3, x))))
  if check_status then do
    let stat ← liftAdi (read_adi s2.apsel Port.DP 1)
    if stat &&& 5 ≠ 0 then throwMA 5
    else pure ()
  else pure ()

/-- Number of DR write shifts in a trace. -/
def countWriteDR (tr : List Ev) : Nat :=
  (tr.filter (fun e =>
    match e with
    | Ev.writeDR _ _ => true
    | _ => false)).length

/-- Number of queued-read requests in a trace. -/
def countQueueDR (tr : List Ev) : Nat :=
  (tr.filter (fun e =>
    match e with
    | Ev.queueDRRead _ => true
    | _ => false)).length

/-- Decoding of a captured 5-byte scan into the (ACK, DATA) pair: ACK is
the low 3 bits of the 35-bit word, DATA the next 32 bits (the split
performed by `parse_ack` and `finish_read`). -/
def decode_scan (scan : List Nat) : Nat × Nat :=
  (decode35 scan % 8, decode35 scan / 8 % 2 ^ 32)


theorem fromLEBytes_append_zeros (l : List Nat) :
    fromLEBytes (l ++ [0, 0, 0]) = fromLEBytes l := by
  induction l with
  | nil => simp [fromLEBytes]
  | cons b bs ih => simp [fromLEBytes, ih]

theorem mod_mul_decomp (v b c : Nat) :
    v % (b * c) = b * (v / b % c) + v % b := by
  have h1 : v % (b * c) % b = v % b := Nat.mod_mod_of_dvd v ⟨c, rfl⟩
  have h2 : v % (b * c) / b = v / b % c := Nat.mod_mul_right_div_self v b c
  calc v % (b * c) = b * (v % (b * c) / b) + v % (b * c) % b :=
        (Nat.div_add_mod _ b).symm
    _ = b * (v / b % c) + v % b := by rw [h1, h2]

theorem fromLEBytes_toLEBytes (n v : Nat) :
    fromLEBytes (toLEBytes n v) = v % 2 ^ (8 * n) := by
  induction n generalizing v with
  | zero => simp [toLEBytes, fromLEBytes, Nat.mod_one]
  | succ n ih =>
    have hpow : (2 : Nat) ^ (8 * (n + 1)) = 256 * 2 ^ (8 * n) := by
      rw [Nat.mul_succ, Nat.pow_add]
      ring
    rw [toLEBytes, fromLEBytes, ih, hpow,
      mod_mul_decomp v 256 (2 ^ (8 * n))]
    omega

theorem decode35_toLEBytes (w : Nat) (hw : w < 2 ^ 35) :
    decode35 (toLEBytes 5 w) = w := by
  rw [decode35, fromLEBytes_append_zeros, fromLEBytes_toLEBytes]
  have h40 : w % 2 ^ (8 * 5) = w := Nat.mod_eq_of_lt (by norm_num; omega)
  rw [h40, Nat.mod_eq_of_lt hw]

theorem decode35_resp (a d : Nat) (ha : a < 8) (hd : d < 2 ^ 32) :
    decode35 (resp a d) = d * 8 + a := by
  rw [resp, decode35_toLEBytes]
  have : (2 : Nat) ^ 32 * 8 = 2 ^ 35 := by norm_num
  omega

theorem lor_mul_pow {b : Nat} (i : Nat) (hb : b < 2 ^ i) (a : Nat) :
    a * 2 ^ i ||| b = a * 2 ^ i + b := by
  rw [Nat.mul_comm]
  exact (Nat.mul_add_lt_is_or hb a).symm

theorem mBind_eq {α β : Type} (x : M α) (f : α → M β) :
    (x >>= f) = mBind x f := rfl

theorem mPure_eq {α : Type} (a : α) : (pure a : M α) = mPure a := rfl

theorem maBind_eq {α β : Type} (x : MA α) (f : α → MA β) :
    (x >>= f) = maBind x f := rfl

theorem maPure_eq {α : Type} (a : α) : (pure a : MA α) = maPure a := rfl
theorem run_wan_ok (port : Port) (reg val : Nat) (r : List Nat)
    (rs : List (List Nat)) (a : AdiState) (q : List Bool) (tr : List Ev)
    (hack : decode35 r % 8 = 2) :
    write_adi_nobank port reg val true ⟨a, r :: rs, q, tr⟩ =
      some (Except.ok (), ⟨⟨a.lastbank, [portIR port]⟩, rs, q,
        tr ++
          (if a.lastir = [portIR port] then [] else
            [Ev.writeIR [portIR port]]) ++
          [Ev.writeDR (toLEBytes 5 (wire_write_word reg val)) 3,
           Ev.readDR 35]⟩) := by
  obtain ⟨lb, li⟩ := a
  by_cases hli : li = [portIR port] <;>
    simp [write_adi_nobank, write_checked_loop, write_ir, getAdi, tWriteIR,
      tWriteDR, tReadDR, emit, setLastir, mBind_eq, mBind, mPure_eq, mPure,
      hack, hli]

theorem run_wan_err (port : Port) (reg val ack : Nat) (r : List Nat)
    (rs : List (List Nat)) (a : AdiState) (q : List Bool) (tr : List Ev)
    (hack : decode35 r % 8 = ack) (ha1 : ack ≠ 1) (ha2 : ack ≠ 2) :
    write_adi_nobank port reg val true ⟨a, r :: rs, q, tr⟩ =
      some (Except.error ack, ⟨⟨a.lastbank, [portIR port]⟩, rs, q,
        tr ++
          (if a.lastir = [portIR port] then [] else
            [Ev.writeIR [portIR port]]) ++
          [Ev.writeDR (toLEBytes 5 (wire_write_word reg val)) 3,
           Ev.readDR 35]⟩) := by
  obtain ⟨lb, li⟩ := a
  by_cases hli : li = [portIR port] <;>
    simp [write_adi_nobank, write_checked_loop, write_ir, getAdi, tWriteIR,
      tWriteDR, tReadDR, emit, setLastir, throwAck, mBind_eq, mBind,
      mPure_eq, mPure, hack, ha1, ha2, hli]

theorem run_wan_wait (port : Port) (reg val : Nat) (r : List Nat)
    (rs : List (List Nat)) (a : AdiState) (q : List Bool) (tr : List Ev)
    (hack : decode35 r % 8 = 1) :
    write_adi_nobank port reg val true ⟨a, r :: rs, q, tr⟩ =
      write_adi_nobank port reg val true
        ⟨⟨a.lastbank, [portIR port]⟩, rs, q,
          tr ++
            (if a.lastir = [portIR port] then [] else
              [Ev.writeIR [portIR port]]) ++
            [Ev.writeDR (toLEBytes 5 (wire_write_word reg val)) 3,
             Ev.readDR 35]⟩ := by
  obtain ⟨lb, li⟩ := a
  by_cases hli : li = [portIR port] <;>
    simp [write_adi_nobank, write_checked_loop, write_ir, getAdi, tWriteIR,
      tWriteDR, tReadDR, emit, setLastir, mBind_eq, mBind, mPure_eq, mPure,
      hack, hli]

theorem run_wan_nocheck (port : Port) (reg val : Nat) (a : AdiState)
    (rsp : List (List Nat)) (q : List Bool) (tr : List Ev) :
    write_adi_nobank port reg val false ⟨a, rsp, q, tr⟩ =
      some (Except.ok (), ⟨⟨a.lastbank, [portIR port]⟩, rsp, q,
        tr ++
          (if a.lastir = [portIR port] then [] else
            [Ev.writeIR [portIR port]]) ++
          [Ev.writeDR (toLEBytes 5 (wire_write_word reg val)) 3]⟩) := by
  obtain ⟨lb, li⟩ := a
  by_cases hli : li = [portIR port] <;>
    simp [write_adi_nobank, write_ir, getAdi, tWriteIR, tWriteDR, emit,
      setLastir, mBind_eq, mBind, mPure_eq, mPure, hli]

/-- C2: encoding a write for `reg2 < 4` and a 32-bit `val` as the 5-byte
little-endian form of `(val << 3) | (reg2 << 1)` and decoding the scan
(zero-extend to 8 bytes, little-endian u64, mask to 35 bits, ACK = low
3 bits, DATA = next 32 bits) recovers exactly `(reg2, val)` (the ACK field
carries `reg2` shifted left by the RnW bit, which is 0), and the ACK
occupies bit positions 2..0 of the scanned word. -/
theorem C2_wire_roundtrip (reg2 val : Nat) (hr : reg2 < 4)
    (hv : val < 2 ^ 32) :
    decode_scan (toLEBytes 5 (wire_write_word reg2 val)) = (reg2 * 2, val) ∧
    (decode_scan (toLEBytes 5 (wire_write_word reg2 val))).1 / 2 = reg2 ∧
    (decode_scan (toLEBytes 5 (wire_write_word reg2 val))).1 % 2 = 0 ∧
    (∀ scan : List Nat, (decode_scan scan).1 = decode35 scan % 8) := by
  have hw : wire_write_word reg2 val = val * 8 + reg2 * 2 := by
    rw [wire_write_word, Nat.mod_eq_of_lt hv,
      Nat.mod_eq_of_lt (show val * 8 < 2 ^ 64 by omega),
      Nat.mod_eq_of_lt (show reg2 * 2 < 256 by omega)]
    have h8 : val * 8 = val * 2 ^ 3 := by norm_num
    rw [h8, lor_mul_pow 3 (by omega) val]
  have hlt : val * 8 + reg2 * 2 < 2 ^ 35 := by
    have : (2 : Nat) ^ 32 * 8 = 2 ^ 35 := by norm_num
    omega
  have hdec : decode_scan (toLEBytes 5 (wire_write_word reg2 val)) =
      ((val * 8 + reg2 * 2) % 8, (val * 8 + reg2 * 2) / 8 % 2 ^ 32) := by
    rw [decode_scan, hw, decode35_toLEBytes _ hlt]
  refine ⟨?_, ?_, ?_, fun scan => rfl⟩
  · rw [hdec]
    have e1 : (val * 8 + reg2 * 2) % 8 = reg2 * 2 := by omega
    have e2 : (val * 8 + reg2 * 2) / 8 % 2 ^ 32 = val := by omega
    rw [e1, e2]
  · rw [hdec]
    show (val * 8 + reg2 * 2) % 8 / 2 = reg2
    omega
  · rw [hdec]
    show (val * 8 + reg2 * 2) % 8 % 2 = 0
    omega

theorem C2_wire_roundtrip_witness :
    (3 : Nat) < 4 ∧ (3000000000 : Nat) < 2 ^ 32 ∧
    decode_scan (toLEBytes 5 (wire_write_word 3 3000000000)) =
      (3 * 2, 3000000000) :=
  ⟨by decide, by norm_num,
    (C2_wire_roundtrip 3 3000000000 (by decide) (by norm_num)).1⟩
/-- C9: when the cached TAR differs from `addr` and the transport cannot
accept another queued read, `MemAP::queue_read(addr)` returns `Ok(false)`
and the TAR cache update performed before the enqueue attempt is not
reverted: the cache still holds `addr` on return. -/
theorem C9_queue_read_full_keeps_tar (apsel csw tar addr : Nat)
    (hcsw : csw &&& 4294967279 = csw) (htar : tar ≠ addr) :
    MemAP_queue_read addr ⟨apsel, csw, tar⟩
      ⟨⟨select_pack apsel 0 0, [11]⟩, [], [false], []⟩ =
      some (Except.ok false, ⟨apsel, csw, addr⟩,
        ⟨⟨select_pack apsel 0 0, [11]⟩, [], [],
          [Ev.writeDR (toLEBytes 5 (wire_write_word 1 addr)) 3,
           Ev.writeDR [7, 0, 0, 0, 0] 3, Ev.queueDRRead 35]⟩) := by
  simp [MemAP_queue_read, MemAP_write_csw, getAP, setTarCache, liftAdi,
    maBind_eq, maBind, maPure_eq, maPure, mBind_eq, mBind, mPure_eq, mPure,
    write_adi_nocheck, queue_read_adi, bank_select, getAdi, write_ir,
    write_adi_nobank, queue_read_adi_nobank, tWriteDR, tQueueDRRead,
    tWriteIR, emit, setLastir, setLastbank, portIR, hcsw, htar]

theorem C9_queue_read_full_keeps_tar_witness :
    (0 : Nat) &&& 4294967279 = 0 ∧ (4 : Nat) ≠ 8 ∧
    MemAP_queue_read 8 ⟨5, 0, 4⟩
      ⟨⟨select_pack 5 0 0, [11]⟩, [], [false], []⟩ =
      some (Except.ok false, ⟨5, 0, 8⟩,
        ⟨⟨select_pack 5 0 0, [11]⟩, [], [],
          [Ev.writeDR (toLEBytes 5 (wire_write_word 1 8)) 3,
           Ev.writeDR [7, 0, 0, 0, 0] 3, Ev.queueDRRead 35]⟩) :=
  ⟨by decide, by decide,
    C9_queue_read_full_keeps_tar 5 0 4 8 (by decide) (by decide)⟩

/-- C4 counterexample: on construction `lastbank` is initialised to 0,
which EQUALS the legal packed SELECT value for `(0, 0, 0)` (so it is not a
sentinel distinct from every legal value), no `bank_select` is invoked and
no SELECT write is emitted: with both checked writes acknowledged OK the
constructor performs exactly two DR write shifts (Abort, then CtrlStat),
not three. -/
theorem C4_counterexample :
    initAdiState.lastbank = select_pack 0 0 0 ∧
    adi_new (mkMachine [resp 2 0, resp 2 0] []) =
      some (Except.ok (), ⟨⟨0, [10]⟩, [], [],
        [Ev.writeIR [10], Ev.writeDR (toLEBytes 5 (wire_write_word 0 0)) 3,
         Ev.readDR 35,
         Ev.writeDR (toLEBytes 5 (wire_write_word 1 ctrlstat_init)) 3,
         Ev.readDR 35]⟩) ∧
    countWriteDR
      [Ev.writeIR [10], Ev.writeDR (toLEBytes 5 (wire_write_word 0 0)) 3,
       Ev.readDR 35,
       Ev.writeDR (toLEBytes 5 (wire_write_word 1 ctrlstat_init)) 3,
       Ev.readDR 35] = 2 :=
  ⟨by decide, by rfl, by rfl⟩

/-- C4 (amended): on construction the SELECT cache `lastbank` is
initialised to 0 — the legal packed value of `(0, 0, 0)` — no
`bank_select` call or SELECT write occurs, and exactly two checked DP
writes are performed in order: DP.Abort = 0 then DP.CtrlStat =
`(1<<30) | (1<<28) | (1<<24) | (1<<5) | (1<<1)`. -/
theorem C4_new_two_writes (d1 d2 : Nat) (h1 : d1 < 2 ^ 32)
    (h2 : d2 < 2 ^ 32) :
    initAdiState.lastbank = select_pack 0 0 0 ∧
    adi_new (mkMachine [resp 2 d1, resp 2 d2] []) =
      some (Except.ok (), ⟨⟨0, [10]⟩, [], [],
        [Ev.writeIR [10], Ev.writeDR (toLEBytes 5 (wire_write_word 0 0)) 3,
         Ev.readDR 35,
         Ev.writeDR (toLEBytes 5 (wire_write_word 1 ctrlstat_init)) 3,
         Ev.readDR 35]⟩) := by
  have e1 : decode35 (resp 2 d1) % 8 = 2 := by
    rw [decode35_resp 2 d1 (by omega) h1]; omega
  have e2 : decode35 (resp 2 d2) % 8 = 2 := by
    rw [decode35_resp 2 d2 (by omega) h2]; omega
  refine ⟨by decide, ?_⟩
  have hA : expectOk (write_adi_nobank Port.DP 0 0 true)
      ⟨⟨0, []⟩, [resp 2 d1, resp 2 d2], [], []⟩ =
      some (Except.ok (), ⟨⟨0, [10]⟩, [resp 2 d2], [],
        [Ev.writeIR [10], Ev.writeDR (toLEBytes 5 (wire_write_word 0 0)) 3,
         Ev.readDR 35]⟩) := by
    rw [expectOk, run_wan_ok Port.DP 0 0 (resp 2 d1) [resp 2 d2] ⟨0, []⟩ [] [] e1]
    simp [portIR]
  have hB : expectOk (write_adi_nobank Port.DP 1 ctrlstat_init true)
      ⟨⟨0, [10]⟩, [resp 2 d2], [],
        [Ev.writeIR [10], Ev.writeDR (toLEBytes 5 (wire_write_word 0 0)) 3,
         Ev.readDR 35]⟩ =
      some (Except.ok (), ⟨⟨0, [10]⟩, [], [],
        [Ev.writeIR [10], Ev.writeDR (toLEBytes 5 (wire_write_word 0 0)) 3,
         Ev.readDR 35,
         Ev.writeDR (toLEBytes 5 (wire_write_word 1 ctrlstat_init)) 3,
         Ev.readDR 35]⟩) := by
    rw [expectOk,
      run_wan_ok Port.DP 1 ctrlstat_init (resp 2 d2) [] ⟨0, [10]⟩ []
        [Ev.writeIR [10], Ev.writeDR (toLEBytes 5 (wire_write_word 0 0)) 3,
         Ev.readDR 35] e2]
    simp [portIR]
  simp only [adi_new, mkMachine, initAdiState, mBind_eq, mBind, hA, hB]

theorem C4_new_two_writes_witness :
    (0 : Nat) < 2 ^ 32 ∧ (0 : Nat) < 2 ^ 32 ∧
    (initAdiState.lastbank = select_pack 0 0 0 ∧
      adi_new (mkMachine [resp 2 0, resp 2 0] []) =
        some (Except.ok (), ⟨⟨0, [10]⟩, [], [],
          [Ev.writeIR [10],
           Ev.writeDR (toLEBytes 5 (wire_write_word 0 0)) 3,
           Ev.readDR 35,
           Ev.writeDR (toLEBytes 5 (wire_write_word 1 ctrlstat_init)) 3,
           Ev.readDR 35]⟩)) :=
  ⟨by norm_num, by norm_num,
    C4_new_two_writes 0 0 (by norm_num) (by norm_num)⟩
/-- C5 counterexample: `write_adi_pipelined` does NOT call
`bank_select(apsel, bank, bank)`: writing register 4 (bank 1) of AP 0
from a SELECT cache holding the sentinel 0xFFFFFFFF leaves the SELECT
cache at `select_pack 0 1 0 = 16` (DPBANKSEL = 0), not at
`select_pack 0 1 1 = 17` as the claim requires for every write path. -/
theorem C5_counterexample :
    write_adi_pipelined 0 Port.AP [(4, 0)]
      ⟨⟨4294967295, [11]⟩, [resp 2 0], [], []⟩ =
      some (Except.ok (), ⟨⟨16, [11]⟩, [], [],
        [Ev.writeIR [10], Ev.writeDR [132, 0, 0, 0, 0] 3, Ev.readDR 35,
         Ev.writeIR [11], Ev.writeDR [0, 0, 0, 0, 0] 3]⟩) ∧
    select_pack 0 1 0 = 16 ∧ select_pack 0 1 1 = 17 :=
  ⟨by rfl, by decide, by decide⟩

/-- C6 counterexample: `read_adi_pipelined` does not return a per-element
result vector: the first non-OK ACK (here a FAULT, ACK = 4, on the first
pipelined element of a two-element read) aborts the entire call with
`Err(4)` and no vector is produced; the trace also shows the function
never touches the transport queue (no `queue_dr_read` calls). -/
theorem C6_counterexample :
    read_adi_pipelined 0 Port.AP [3, 3]
      ⟨⟨0, [11]⟩, [resp 4 0], [], []⟩ =
      some (Except.error 4, ⟨⟨0, [11]⟩, [], [],
        [Ev.writeDR [7, 0, 0, 0, 0] 3, Ev.readWriteDR [7, 0, 0, 0, 0] 3]⟩) ∧
    countQueueDR
      [Ev.writeDR [7, 0, 0, 0, 0] 3, Ev.readWriteDR [7, 0, 0, 0, 0] 3] = 0 :=
  ⟨by rfl, by rfl⟩

/-- C7: `read_block(addr, count, check_status)` updates the TAR cache only
inside the `tar != addr` branch; when the cached TAR already equals `addr`
the burst still auto-increments the target TAR by `4 * count` but the
cache is left at `addr`.  Concretely, with cached `tar = addr = 8` and
`count = 1`, a successful burst leaves the cache at 8, not at
`addr + 4 * count = 12` as the claim requires. -/
theorem C7_read_block_stale_tar :
    MemAP_read_block 8 1 false ⟨0, 16, 8⟩ ⟨⟨0, [11]⟩, [resp 2 7], [], []⟩ =
      some (Except.ok [7], ⟨0, 16, 8⟩, ⟨⟨0, [11]⟩, [], [],
        [Ev.writeDR [7, 0, 0, 0, 0] 3, Ev.readDR 35]⟩) ∧
    (8 : Nat) + 4 * 1 = 12 :=
  ⟨by rfl, by rfl⟩

/-- C8 counterexample: a CSW write failing with the non-retryable ACK 4
returns `Err(4)` with the CSW cache left at its previous ordinary value 0
(a perfectly possible register value): the cache is not set to an
impossible value before returning. -/
theorem C8_counterexample :
    MemAP_write_csw 16 ⟨0, 0, 0⟩ ⟨⟨0, [11]⟩, [resp 4 0], [], []⟩ =
      some (Except.error 4, ⟨0, 0, 0⟩, ⟨⟨0, [11]⟩, [], [],
        [Ev.writeDR [128, 0, 0, 0, 0] 3, Ev.readDR 35]⟩) :=
  by rfl
/-- C5 (amended): with `bank = reg >> 2`, every read path (`read_adi`,
`queue_read_adi`, `read_adi_pipelined`) calls
`bank_select(apsel, bank, 0)`, and the scalar write paths (`write_adi`,
`write_adi_nocheck`) call `bank_select(apsel, bank, bank)`; the pipelined
write path `write_adi_pipelined`, however, calls
`bank_select(apsel, bank, 0)` like the read paths.  Observed through the
SELECT cache after running each path from a cache holding `lb`. -/
theorem C5_bank_select_args (apsel reg v d lb : Nat) (hd : d < 2 ^ 32)
    (h0 : lb ≠ select_pack apsel (reg % 256 / 4) 0)
    (hb : lb ≠ select_pack apsel (reg % 256 / 4) (reg % 256 / 4)) :
    (∀ port, (read_adi apsel port reg
        ⟨⟨lb, [portIR port]⟩, [resp 2 0, resp 2 d], [true], []⟩).map
        (fun p => p.2.adi.lastbank) =
        some (select_pack apsel (reg % 256 / 4) 0)) ∧
    (∀ port, (queue_read_adi apsel port reg
        ⟨⟨lb, [portIR port]⟩, [resp 2 0], [true], []⟩).map
        (fun p => p.2.adi.lastbank) =
        some (select_pack apsel (reg % 256 / 4) 0)) ∧
    (∀ port, (read_adi_pipelined apsel port [reg]
        ⟨⟨lb, [portIR port]⟩, [resp 2 0, resp 2 d], [], []⟩).map
        (fun p => p.2.adi.lastbank) =
        some (select_pack apsel (reg % 256 / 4) 0)) ∧
    (∀ port, (write_adi apsel port reg v
        ⟨⟨lb, [portIR port]⟩, [resp 2 0, resp 2 d], [], []⟩).map
        (fun p => p.2.adi.lastbank) =
        some (select_pack apsel (reg % 256 / 4) (reg % 256 / 4))) ∧
    (∀ port, (write_adi_nocheck apsel port reg v
        ⟨⟨lb, [portIR port]⟩, [resp 2 0], [], []⟩).map
        (fun p => p.2.adi.lastbank) =
        some (select_pack apsel (reg % 256 / 4) (reg % 256 / 4))) ∧
    (∀ port, (write_adi_pipelined apsel port [(reg, v)]
        ⟨⟨lb, [portIR port]⟩, [resp 2 0], [], []⟩).map
        (fun p => p.2.adi.lastbank) =
        some (select_pack apsel (reg % 256 / 4) 0)) := by
  have hsel0 : decode35 (resp 2 0) % 8 = 2 := by
    rw [decode35_resp 2 0 (by omega) (by norm_num)]
  have hseld : decode35 (resp 2 d) % 8 = 2 := by
    rw [decode35_resp 2 d (by omega) hd]; omega
  have h0s : select_pack apsel (reg % 256 / 4) 0 ≠ lb := h0.symm
  have hbs : select_pack apsel (reg % 256 / 4) (reg % 256 / 4) ≠ lb := hb.symm
  refine ⟨?_, ?_, ?_, ?_, ?_, ?_⟩ <;> intro port <;> cases port <;>
    simp [read_adi, queue_read_adi, read_adi_pipelined, write_adi,
      write_adi_nocheck, write_adi_pipelined, bank_select, expectOk,
      run_wan_ok, run_wan_nocheck, hsel0, hseld, h0s, hbs,
      read_adi_nobank, queue_read_adi_nobank, finish_read, rp_loop, rp_buf,
      wp_loop, parse_ack, write_ir, getAdi, setLastir, setLastbank,
      tWriteIR, tWriteDR, tReadDR, tReadWriteDR, tQueueDRRead,
      tFinishDRRead, emit, mBind_eq, mBind, mPure_eq,
      mPure, portIR, throwAck]

theorem C5_bank_select_args_witness :
    (0 : Nat) < 2 ^ 32 ∧
    (4294967295 : Nat) ≠ select_pack 0 (4 % 256 / 4) 0 ∧
    (4294967295 : Nat) ≠ select_pack 0 (4 % 256 / 4) (4 % 256 / 4) ∧
    (write_adi_pipelined 0 Port.AP [(4, 0)]
        ⟨⟨4294967295, [portIR Port.AP]⟩, [resp 2 0], [], []⟩).map
      (fun p => p.2.adi.lastbank) = some (select_pack 0 (4 % 256 / 4) 0) :=
  ⟨by norm_num, by decide, by decide,
    (C5_bank_select_args 0 4 0 0 4294967295 (by norm_num) (by decide)
      (by decide)).2.2.2.2.2 Port.AP⟩

/-- C8 (amended): when the ADI write of CSW (in `write_csw`) or of TAR (in
`read`, `write`, `read_block`, `write_block`) fails with a non-retryable
ACK, the error is returned with the corresponding cache field left
UNCHANGED at its previous value; caches are updated only after a
successful write, and no invalidation to an impossible value occurs. -/
theorem C8_cache_unchanged_on_failure (apsel cswa cswb tar addr v ack : Nat)
    (len : Nat) (data : List Nat) (ha8 : ack < 8) (ha1 : ack ≠ 1)
    (ha2 : ack ≠ 2) (hv : v ≠ cswa) (hcswa : cswa &&& 4294967279 = cswa)
    (hcswb : cswb ||| 16 = cswb) (htar : tar ≠ addr) :
    MemAP_write_csw v ⟨apsel, cswa, tar⟩
        ⟨⟨select_pack apsel 0 0, [11]⟩, [resp ack 0], [], []⟩ =
      some (Except.error ack, ⟨apsel, cswa, tar⟩,
        ⟨⟨select_pack apsel 0 0, [11]⟩, [], [],
          [Ev.writeDR (toLEBytes 5 (wire_write_word 0 v)) 3,
           Ev.readDR 35]⟩) ∧
    MemAP_read addr ⟨apsel, cswa, tar⟩
        ⟨⟨select_pack apsel 0 0, [11]⟩, [resp ack 0], [], []⟩ =
      some (Except.error ack, ⟨apsel, cswa, tar⟩,
        ⟨⟨select_pack apsel 0 0, [11]⟩, [], [],
          [Ev.writeDR (toLEBytes 5 (wire_write_word 1 addr)) 3,
           Ev.readDR 35]⟩) ∧
    MemAP_write addr v ⟨apsel, cswa, tar⟩
        ⟨⟨select_pack apsel 0 0, [11]⟩, [resp ack 0], [], []⟩ =
      some (Except.error ack, ⟨apsel, cswa, tar⟩,
        ⟨⟨select_pack apsel 0 0, [11]⟩, [], [],
          [Ev.writeDR (toLEBytes 5 (wire_write_word 1 addr)) 3,
           Ev.readDR 35]⟩) ∧
    MemAP_read_block addr len false ⟨apsel, cswb, tar⟩
        ⟨⟨select_pack apsel 0 0, [11]⟩, [resp ack 0], [], []⟩ =
      some (Except.error ack, ⟨apsel, cswb, tar⟩,
        ⟨⟨select_pack apsel 0 0, [11]⟩, [], [],
          [Ev.writeDR (toLEBytes 5 (wire_write_word 1 addr)) 3,
           Ev.readDR 35]⟩) ∧
    MemAP_write_block addr data false ⟨apsel, cswb, tar⟩
        ⟨⟨select_pack apsel 0 0, [11]⟩, [resp ack 0], [], []⟩ =
      some (Except.error ack, ⟨apsel, cswb, tar⟩,
        ⟨⟨select_pack apsel 0 0, [11]⟩, [], [],
          [Ev.writeDR (toLEBytes 5 (wire_write_word 1 addr)) 3,
           Ev.readDR 35]⟩) := by
  have hackdec : decode35 (resp ack 0) % 8 = ack := by
    rw [decode35_resp ack 0 ha8 (by norm_num)]; omega
  have hfail : ∀ rg vv : Nat, write_adi_nobank Port.AP rg vv true
      ⟨⟨select_pack apsel 0 0, [11]⟩, [resp ack 0], [], []⟩ =
      some (Except.error ack, ⟨⟨select_pack apsel 0 0, [11]⟩, [], [],
        [Ev.writeDR (toLEBytes 5 (wire_write_word rg vv)) 3,
         Ev.readDR 35]⟩) := by
    intro rg vv
    rw [run_wan_err Port.AP rg vv ack (resp ack 0) []
      ⟨select_pack apsel 0 0, [11]⟩ [] [] hackdec ha1 ha2]
    simp [portIR]
  refine ⟨?_, ?_, ?_, ?_, ?_⟩ <;>
    simp [MemAP_write_csw, MemAP_read, MemAP_write, MemAP_read_block,
      MemAP_write_block, getAP, setTarCache, setCswCache, liftAdi, throwMA,
      maBind_eq, maBind, maPure_eq, maPure, write_adi, bank_select, getAdi,
      setLastbank, expectOk, hfail, mBind_eq, mBind, mPure_eq, mPure,
      hv, hcswa, hcswb, htar]

theorem C8_cache_unchanged_on_failure_witness :
    (4 : Nat) < 8 ∧ (4 : Nat) ≠ 1 ∧ (4 : Nat) ≠ 2 ∧ (8 : Nat) ≠ 0 ∧
    (0 : Nat) &&& 4294967279 = 0 ∧ (16 : Nat) ||| 16 = 16 ∧
    (0 : Nat) ≠ 4 ∧
    MemAP_write_csw 8 ⟨0, 0, 0⟩
        ⟨⟨select_pack 0 0 0, [11]⟩, [resp 4 0], [], []⟩ =
      some (Except.error 4, ⟨0, 0, 0⟩,
        ⟨⟨select_pack 0 0 0, [11]⟩, [], [],
          [Ev.writeDR (toLEBytes 5 (wire_write_word 0 8)) 3,
           Ev.readDR 35]⟩) :=
  ⟨by decide, by decide, by decide, by decide, by decide, by decide,
    by decide,
    (C8_cache_unchanged_on_failure 0 0 16 0 4 8 4 1 [] (by decide)
      (by decide) (by decide) (by decide) (by decide) (by decide)
      (by decide)).1⟩
/-- C1: `MemAP::read(addr)` performs, in order: a `write_csw` clearing CSW
bit 4 (emitting a checked CSW write exactly when that changes the cached
CSW); a checked TAR write of `addr` exactly when the cached `tar` differs
from `addr`, updating the cache to `addr`; a checked read of DRW; and a
checked read of DP.CtrlStat.  It returns the DRW value when CtrlStat has
no bit of mask 0x5 set, and fails with error code 5 otherwise.  The three
conjuncts cover: cached tar differing from `addr` (TAR write emitted),
cached tar equal to `addr` (no TAR write), and CSW bit 4 set (CSW write
emitted first). -/
theorem C1_memap_read (apsel csw addr tar drw stat : Nat)
    (hdrw : drw < 2 ^ 32) (hstat : stat < 2 ^ 32) :
    (csw &&& 4294967279 = csw → tar ≠ addr →
      MemAP_read addr ⟨apsel, csw, tar⟩
        ⟨⟨select_pack apsel 0 0, [11]⟩,
          [resp 2 0, resp 2 drw, resp 2 stat], [true, true], []⟩ =
      (if stat &&& 5 ≠ 0 then
        some (Except.error 5, ⟨apsel, csw, addr⟩,
          ⟨⟨select_pack apsel 0 0, [10]⟩, [], [],
            [Ev.writeDR (toLEBytes 5 (wire_write_word 1 addr)) 3,
             Ev.readDR 35, Ev.writeDR [7, 0, 0, 0, 0] 3,
             Ev.queueDRRead 35, Ev.finishDRRead 35, Ev.writeIR [10],
             Ev.writeDR [3, 0, 0, 0, 0] 3, Ev.queueDRRead 35,
             Ev.finishDRRead 35]⟩)
      else
        some (Except.ok drw, ⟨apsel, csw, addr⟩,
          ⟨⟨select_pack apsel 0 0, [10]⟩, [], [],
            [Ev.writeDR (toLEBytes 5 (wire_write_word 1 addr)) 3,
             Ev.readDR 35, Ev.writeDR [7, 0, 0, 0, 0] 3,
             Ev.queueDRRead 35, Ev.finishDRRead 35, Ev.writeIR [10],
             Ev.writeDR [3, 0, 0, 0, 0] 3, Ev.queueDRRead 35,
             Ev.finishDRRead 35]⟩))) ∧
    (csw &&& 4294967279 = csw →
      MemAP_read addr ⟨apsel, csw, addr⟩
        ⟨⟨select_pack apsel 0 0, [11]⟩, [resp 2 drw, resp 2 stat],
          [true, true], []⟩ =
      (if stat &&& 5 ≠ 0 then
        some (Except.error 5, ⟨apsel, csw, addr⟩,
          ⟨⟨select_pack apsel 0 0, [10]⟩, [], [],
            [Ev.writeDR [7, 0, 0, 0, 0] 3, Ev.queueDRRead 35,
             Ev.finishDRRead 35, Ev.writeIR [10],
             Ev.writeDR [3, 0, 0, 0, 0] 3, Ev.queueDRRead 35,
             Ev.finishDRRead 35]⟩)
      else
        some (Except.ok drw, ⟨apsel, csw, addr⟩,
          ⟨⟨select_pack apsel 0 0, [10]⟩, [], [],
            [Ev.writeDR [7, 0, 0, 0, 0] 3, Ev.queueDRRead 35,
             Ev.finishDRRead 35, Ev.writeIR [10],
             Ev.writeDR [3, 0, 0, 0, 0] 3, Ev.queueDRRead 35,
             Ev.finishDRRead 35]⟩))) ∧
    (csw &&& 4294967279 ≠ csw →
      MemAP_read addr ⟨apsel, csw, addr⟩
        ⟨⟨select_pack apsel 0 0, [11]⟩,
          [resp 2 0, resp 2 drw, resp 2 stat], [true, true], []⟩ =
      (if stat &&& 5 ≠ 0 then
        some (Except.error 5, ⟨apsel, csw &&& 4294967279, addr⟩,
          ⟨⟨select_pack apsel 0 0, [10]⟩, [], [],
            [Ev.writeDR
               (toLEBytes 5 (wire_write_word 0 (csw &&& 4294967279))) 3,
             Ev.readDR 35, Ev.writeDR [7, 0, 0, 0, 0] 3,
             Ev.queueDRRead 35, Ev.finishDRRead 35, Ev.writeIR [10],
             Ev.writeDR [3, 0, 0, 0, 0] 3, Ev.queueDRRead 35,
             Ev.finishDRRead 35]⟩)
      else
        some (Except.ok drw, ⟨apsel, csw &&& 4294967279, addr⟩,
          ⟨⟨select_pack apsel 0 0, [10]⟩, [], [],
            [Ev.writeDR
               (toLEBytes 5 (wire_write_word 0 (csw &&& 4294967279))) 3,
             Ev.readDR 35, Ev.writeDR [7, 0, 0, 0, 0] 3,
             Ev.queueDRRead 35, Ev.finishDRRead 35, Ev.writeIR [10],
             Ev.writeDR [3, 0, 0, 0, 0] 3, Ev.queueDRRead 35,
             Ev.finishDRRead 35]⟩))) := by
  have hd0 : decode35 (resp 2 0) % 8 = 2 := by
    rw [decode35_resp 2 0 (by omega) (by norm_num)]
  have hdw : decode35 (resp 2 drw) = drw * 8 + 2 :=
    decode35_resp 2 drw (by omega) hdrw
  have hdwm : (drw * 8 + 2) % 8 = 2 := by omega
  have hdwd : (drw * 8 + 2) / 8 % 4294967296 = drw := by omega
  have hds : decode35 (resp 2 stat) = stat * 8 + 2 :=
    decode35_resp 2 stat (by omega) hstat
  have hdsm : (stat * 8 + 2) % 8 = 2 := by omega
  have hdsd : (stat * 8 + 2) / 8 % 4294967296 = stat := by omega
  refine ⟨fun hcsw htar => ?_, fun hcsw => ?_, fun hcsw => ?_⟩ <;>
    simp [MemAP_read, MemAP_write_csw, getAP, setTarCache, setCswCache,
      liftAdi, throwMA, maBind_eq, maBind, maPure_eq, maPure, read_adi,
      write_adi, bank_select, read_adi_nobank, queue_read_adi_nobank,
      finish_read, write_ir, getAdi, setLastir, setLastbank, expectOk,
      tWriteDR, tQueueDRRead, tFinishDRRead, tWriteIR, emit, portIR,
      run_wan_ok, mBind_eq, mBind, mPure_eq, mPure, throwAck, ite_apply,
      hd0, hdw, hdwm, hdwd, hds, hdsm, hdsd, hcsw, *]
  all_goals split <;> rfl

theorem C1_memap_read_witness :
    (7 : Nat) < 2 ^ 32 ∧ (0 : Nat) < 2 ^ 32 ∧
    (0 : Nat) &&& 4294967279 = 0 ∧ (8 : Nat) ≠ 4 ∧
    MemAP_read 4 ⟨0, 0, 8⟩
      ⟨⟨select_pack 0 0 0, [11]⟩, [resp 2 0, resp 2 7, resp 2 0],
        [true, true], []⟩ =
    (if (0 : Nat) &&& 5 ≠ 0 then
      some (Except.error 5, ⟨0, 0, 4⟩,
        ⟨⟨select_pack 0 0 0, [10]⟩, [], [],
          [Ev.writeDR (toLEBytes 5 (wire_write_word 1 4)) 3,
           Ev.readDR 35, Ev.writeDR [7, 0, 0, 0, 0] 3,
           Ev.queueDRRead 35, Ev.finishDRRead 35, Ev.writeIR [10],
           Ev.writeDR [3, 0, 0, 0, 0] 3, Ev.queueDRRead 35,
           Ev.finishDRRead 35]⟩)
    else
      some (Except.ok 7, ⟨0, 0, 4⟩,
        ⟨⟨select_pack 0 0 0, [10]⟩, [], [],
          [Ev.writeDR (toLEBytes 5 (wire_write_word 1 4)) 3,
           Ev.readDR 35, Ev.writeDR [7, 0, 0, 0, 0] 3,
           Ev.queueDRRead 35, Ev.finishDRRead 35, Ev.writeIR [10],
           Ev.writeDR [3, 0, 0, 0, 0] 3, Ev.queueDRRead 35,
           Ev.finishDRRead 35]⟩)) :=
  ⟨by norm_num, by norm_num, by decide, by decide,
    (C1_memap_read 0 0 4 8 7 0 (by norm_num) (by norm_num)).1 (by decide)
      (by decide)⟩
/-- C3: for a checked write (`write_adi_nobank` with `check = true`): an
ACK of 2 returns `Ok`; any ACK other than 1 and 2 is returned verbatim as
the error code; and an ACK of 1 retries the full IR-write/DR-write/ACK-read
loop without caller involvement — with ACK sequence 1, 1, 2 the write
performs exactly three DR write shifts and returns `Ok`. -/
theorem C3_checked_write_ack (port : Port) (reg val d a lb : Nat)
    (q : List Bool) (hd : d < 2 ^ 32) (ha8 : a < 8) (ha1 : a ≠ 1)
    (ha2 : a ≠ 2) :
    (write_adi_nobank port reg val true
        ⟨⟨lb, [portIR port]⟩, [resp 2 d], q, []⟩ =
      some (Except.ok (), ⟨⟨lb, [portIR port]⟩, [], q,
        [Ev.writeDR (toLEBytes 5 (wire_write_word reg val)) 3,
         Ev.readDR 35]⟩)) ∧
    (write_adi_nobank port reg val true
        ⟨⟨lb, [portIR port]⟩, [resp a d], q, []⟩ =
      some (Except.error a, ⟨⟨lb, [portIR port]⟩, [], q,
        [Ev.writeDR (toLEBytes 5 (wire_write_word reg val)) 3,
         Ev.readDR 35]⟩)) ∧
    (write_adi_nobank port reg val true
        ⟨⟨lb, [portIR port]⟩, [resp 1 0, resp 1 0, resp 2 0], q, []⟩ =
      some (Except.ok (), ⟨⟨lb, [portIR port]⟩, [], q,
        [Ev.writeDR (toLEBytes 5 (wire_write_word reg val)) 3,
         Ev.readDR 35,
         Ev.writeDR (toLEBytes 5 (wire_write_word reg val)) 3,
         Ev.readDR 35,
         Ev.writeDR (toLEBytes 5 (wire_write_word reg val)) 3,
         Ev.readDR 35]⟩)) ∧
    countWriteDR
      [Ev.writeDR (toLEBytes 5 (wire_write_word reg val)) 3,
       Ev.readDR 35,
       Ev.writeDR (toLEBytes 5 (wire_write_word reg val)) 3,
       Ev.readDR 35,
       Ev.writeDR (toLEBytes 5 (wire_write_word reg val)) 3,
       Ev.readDR 35] = 3 := by
  have h1 : decode35 (resp 1 0) % 8 = 1 := by
    rw [decode35_resp 1 0 (by omega) (by norm_num)]
  have h20 : decode35 (resp 2 0) % 8 = 2 := by
    rw [decode35_resp 2 0 (by omega) (by norm_num)]
  have h2d : decode35 (resp 2 d) % 8 = 2 := by
    rw [decode35_resp 2 d (by omega) hd]; omega
  have had : decode35 (resp a d) % 8 = a := by
    rw [decode35_resp a d ha8 hd]; omega
  refine ⟨?_, ?_, ?_, rfl⟩
  · rw [run_wan_ok port reg val (resp 2 d) [] ⟨lb, [portIR port]⟩ q [] h2d]
    simp
  · rw [run_wan_err port reg val a (resp a d) [] ⟨lb, [portIR port]⟩ q []
      had ha1 ha2]
    simp
  · simp [run_wan_wait, run_wan_ok, h1, h20]

theorem C3_checked_write_ack_witness :
    (9 : Nat) < 2 ^ 32 ∧ (4 : Nat) < 8 ∧ (4 : Nat) ≠ 1 ∧ (4 : Nat) ≠ 2 ∧
    write_adi_nobank Port.DP 1 5 true
        ⟨⟨0, [portIR Port.DP]⟩, [resp 2 9], [], []⟩ =
      some (Except.ok (), ⟨⟨0, [portIR Port.DP]⟩, [], [],
        [Ev.writeDR (toLEBytes 5 (wire_write_word 1 5)) 3,
         Ev.readDR 35]⟩) :=
  ⟨by norm_num, by decide, by decide, by decide,
    (C3_checked_write_ack Port.DP 1 5 9 4 0 [] (by norm_num) (by decide)
      (by decide) (by decide)).1⟩
theorem parse_ack_resp_ok (d : Nat) (hd : d < 2 ^ 32) :
    parse_ack (resp 2 d) = Except.ok d := by
  have h1 : (d * 8 + 2) % 8 = 2 := by omega
  have h2 : (d * 8 + 2) / 8 % 4294967296 = d := by omega
  simp [parse_ack, decode35_resp 2 d (by omega) hd, h1, h2]

theorem parse_ack_resp_err (a d : Nat) (ha : a < 8) (ha2 : a ≠ 2)
    (hd : d < 2 ^ 32) :
    parse_ack (resp a d) = Except.error a := by
  have h1 : (d * 8 + a) % 8 = a := by omega
  simp [parse_ack, decode35_resp a d ha hd, h1, ha2]

theorem rp_loop_run (b : Nat) (l ds acc : List Nat) (a : AdiState)
    (rest : List (List Nat)) (q : List Bool) (tr : List Ev)
    (hbank : ∀ r ∈ l, r % 256 / 4 = b) (hlen : ds.length = l.length)
    (hds : ∀ x ∈ ds, x < 2 ^ 32) :
    rp_loop b l acc ⟨a, ds.map (resp 2) ++ rest, q, tr⟩ =
      some (Except.ok (acc ++ ds), ⟨a, rest, q,
        tr ++ l.map (fun r => Ev.readWriteDR (rp_buf r) 3)⟩) := by
  induction l generalizing ds acc tr with
  | nil =>
    have hds0 : ds = [] := List.length_eq_zero.mp hlen
    subst hds0
    simp [rp_loop, maPure_eq, maPure, mPure_eq, mPure]
  | cons r rs ih =>
    cases ds with
    | nil => simp at hlen
    | cons d ds1 =>
      have hd : d < 2 ^ 32 := hds d (by simp)
      have hds1 : ∀ x ∈ ds1, x < 2 ^ 32 := fun x hx => hds x (by simp [hx])
      have hr : r % 256 / 4 = b := hbank r (by simp)
      have hrs : ∀ x ∈ rs, x % 256 / 4 = b := fun x hx =>
        hbank x (by simp [hx])
      have hlen1 : ds1.length = rs.length := by simpa using hlen
      simp only [rp_loop, hr, if_pos, List.map_cons, List.cons_append,
        mBind_eq, mBind, tReadWriteDR, parse_ack_resp_ok d hd]
      rw [ih ds1 (acc ++ [d]) (tr ++ [Ev.readWriteDR (rp_buf r) 3]) hrs
        hlen1 hds1]
      simp

theorem rp_loop_panic (b : Nat) (l ds acc : List Nat) (a : AdiState)
    (rest : List (List Nat)) (q : List Bool) (tr : List Ev)
    (hmis : ∃ r ∈ l, ¬r % 256 / 4 = b) (hlen : l.length ≤ ds.length)
    (hds : ∀ x ∈ ds, x < 2 ^ 32) :
    rp_loop b l acc ⟨a, ds.map (resp 2) ++ rest, q, tr⟩ = none := by
  induction l generalizing ds acc tr with
  | nil => simp at hmis
  | cons r rs ih =>
    by_cases hr : r % 256 / 4 = b
    · obtain ⟨r1, hr1, hr1m⟩ := hmis
      have hr1rs : r1 ∈ rs := by
        rcases List.mem_cons.mp hr1 with h | h
        · exact absurd (h ▸ hr) hr1m
        · exact h
      cases ds with
      | nil => simp at hlen
      | cons d ds1 =>
        have hd : d < 2 ^ 32 := hds d (by simp)
        have hds1 : ∀ x ∈ ds1, x < 2 ^ 32 := fun x hx => hds x (by simp [hx])
        have hlen1 : rs.length ≤ ds1.length := by simpa using hlen
        simp only [rp_loop, hr, if_pos, List.map_cons, List.cons_append,
          mBind_eq, mBind, tReadWriteDR, parse_ack_resp_ok d hd]
        exact ih ds1 (acc ++ [d]) (tr ++ [Ev.readWriteDR (rp_buf r) 3])
          ⟨r1, hr1rs, hr1m⟩ hlen1 hds1
    · simp [rp_loop, hr, rustAbort, mBind_eq, mBind, tReadWriteDR]

theorem wp_loop_run (b : Nat) (l : List (Nat × Nat)) (a : AdiState)
    (rsp : List (List Nat)) (q : List Bool) (tr : List Ev)
    (hbank : ∀ x ∈ l, x.1 % 256 / 4 = b) :
    wp_loop b l ⟨a, rsp, q, tr⟩ =
      some (Except.ok (), ⟨a, rsp, q,
        tr ++ l.map (fun x =>
          Ev.writeDR
            (toLEBytes 5 (x.2 % 2 ^ 32 * 8 % 2 ^ 64 ||| x.1 % 4 * 2))
            3)⟩) := by
  induction l generalizing tr with
  | nil => simp [wp_loop, maPure_eq, maPure, mPure_eq, mPure]
  | cons rv rs ih =>
    have hr : rv.1 % 256 / 4 = b := hbank rv (by simp)
    have hrs : ∀ x ∈ rs, x.1 % 256 / 4 = b := fun x hx =>
      hbank x (by simp [hx])
    simp only [wp_loop, hr, if_pos, List.map_cons, mBind_eq, mBind,
      tWriteDR, emit]
    rw [ih _ hrs]
    simp

theorem wp_loop_panic (b : Nat) (l : List (Nat × Nat)) (m : Machine)
    (hmis : ∃ x ∈ l, ¬x.1 % 256 / 4 = b) :
    wp_loop b l m = none := by
  induction l generalizing m with
  | nil => simp at hmis
  | cons rv rs ih =>
    by_cases hr : rv.1 % 256 / 4 = b
    · obtain ⟨x, hx, hxm⟩ := hmis
      have hxrs : x ∈ rs := by
        rcases List.mem_cons.mp hx with h | h
        · exact absurd (h ▸ hr) hxm
        · exact h
      simp only [wp_loop, hr, if_pos, mBind_eq, mBind, tWriteDR, emit]
      exact ih _ ⟨x, hxrs, hxm⟩
    · simp [wp_loop, hr, rustAbort, mBind_eq, mBind, tWriteDR, emit]

theorem countQueueDR_map_rw (l : List Nat) :
    countQueueDR (l.map (fun r => Ev.readWriteDR (rp_buf r) 3)) = 0 := by
  induction l with
  | nil => rfl
  | cons r rs ih => simp [countQueueDR, List.filter] at ih ⊢

theorem countQueueDR_append (x y : List Ev) :
    countQueueDR (x ++ y) = countQueueDR x + countQueueDR y := by
  simp [countQueueDR, List.filter_append]
/-- C6 (amended): `read_adi_pipelined` aborts the whole call with
`Err(ack)` at the first element whose ACK is not OK, returning no vector;
when every ACK is OK it returns exactly one value per requested register
(never a shorter vector), and it never touches the transport deferred-read
queue, so a queue-full condition cannot arise. -/
theorem C6_pipelined_whole_call (apsel reg d a dl : Nat) (port : Port)
    (regs ds : List Nat) (ha8 : a < 8) (ha2 : a ≠ 2) (hd : d < 2 ^ 32)
    (hdl : dl < 2 ^ 32)
    (hbank : ∀ r ∈ regs, r % 256 / 4 = reg % 256 / 4)
    (hlen : ds.length = regs.length) (hds : ∀ x ∈ ds, x < 2 ^ 32) :
    (read_adi_pipelined apsel port [reg, reg]
        ⟨⟨select_pack apsel (reg % 256 / 4) 0, [portIR port]⟩,
          [resp a d], [], []⟩ =
      some (Except.error a,
        ⟨⟨select_pack apsel (reg % 256 / 4) 0, [portIR port]⟩, [], [],
          [Ev.writeDR (rp_buf reg) 3, Ev.readWriteDR (rp_buf reg) 3]⟩)) ∧
    (read_adi_pipelined apsel port (reg :: regs)
        ⟨⟨select_pack apsel (reg % 256 / 4) 0, [portIR port]⟩,
          ds.map (resp 2) ++ [resp 2 dl], [], []⟩ =
      some (Except.ok (ds ++ [dl]),
        ⟨⟨select_pack apsel (reg % 256 / 4) 0, [portIR port]⟩, [], [],
          Ev.writeDR (rp_buf reg) 3 ::
            (regs.map (fun r => Ev.readWriteDR (rp_buf r) 3) ++
              [Ev.readDR 35])⟩)) ∧
    (ds ++ [dl]).length = (reg :: regs).length ∧
    countQueueDR
      (Ev.writeDR (rp_buf reg) 3 ::
        (regs.map (fun r => Ev.readWriteDR (rp_buf r) 3) ++
          [Ev.readDR 35])) = 0 := by
  have hpe : parse_ack (resp a d) = Except.error a :=
    parse_ack_resp_err a d ha8 ha2 hd
  have hpo : parse_ack (resp 2 dl) = Except.ok dl := parse_ack_resp_ok dl hdl
  have hrun := rp_loop_run (reg % 256 / 4) regs ds []
    ⟨select_pack apsel (reg % 256 / 4) 0, [portIR port]⟩ [resp 2 dl] []
    [Ev.writeDR (rp_buf reg) 3] hbank hlen hds
  refine ⟨?_, ?_, by simp [hlen], ?_⟩
  · simp [read_adi_pipelined, bank_select, getAdi, write_ir, setLastir,
      rp_loop, tWriteDR, tReadWriteDR, tReadDR, emit, mBind_eq, mBind,
      mPure_eq, mPure, throwAck, hpe]
  · simp [read_adi_pipelined, bank_select, getAdi, write_ir, setLastir,
      tWriteDR, tReadDR, emit, mBind_eq, mBind, mPure_eq, mPure, throwAck,
      hrun, hpo]
  · show countQueueDR ([Ev.writeDR (rp_buf reg) 3] ++
      (regs.map (fun r => Ev.readWriteDR (rp_buf r) 3) ++
        [Ev.readDR 35])) = 0
    rw [countQueueDR_append, countQueueDR_append, countQueueDR_map_rw]
    rfl

theorem C6_pipelined_whole_call_witness :
    (4 : Nat) < 8 ∧ (4 : Nat) ≠ 2 ∧ (0 : Nat) < 2 ^ 32 ∧
    (0 : Nat) < 2 ^ 32 ∧
    read_adi_pipelined 0 Port.AP [3, 3]
        ⟨⟨select_pack 0 (3 % 256 / 4) 0, [portIR Port.AP]⟩,
          [resp 4 0], [], []⟩ =
      some (Except.error 4,
        ⟨⟨select_pack 0 (3 % 256 / 4) 0, [portIR Port.AP]⟩, [], [],
          [Ev.writeDR (rp_buf 3) 3, Ev.readWriteDR (rp_buf 3) 3]⟩) :=
  ⟨by decide, by decide, by norm_num, by norm_num,
    (C6_pipelined_whole_call 0 3 0 4 0 Port.AP [] [] (by decide)
      (by decide) (by norm_num) (by norm_num) (by simp) (by rfl)
      (by simp)).1⟩
/-- C10: the pipelined paths are partial at the public interface: for the
empty register list both `read_adi_pipelined` and `write_adi_pipelined`
panic (the `reg[0]` index); a list containing a register whose bank
(`reg >> 2`) differs from that of the first element panics via the
per-element assertion (given enough OK responses to reach it); and for
every non-empty list whose registers all share one bank no assertion
fires and the functions run to completion. -/
theorem C10_pipelined_partiality :
    (∀ (apsel : Nat) (port : Port) (m : Machine),
      read_adi_pipelined apsel port [] m = none) ∧
    (∀ (apsel : Nat) (port : Port) (m : Machine),
      write_adi_pipelined apsel port [] m = none) ∧
    (∀ (apsel reg dl : Nat) (port : Port) (regs ds : List Nat),
      (∃ r ∈ regs, ¬r % 256 / 4 = reg % 256 / 4) →
      regs.length ≤ ds.length → (∀ x ∈ ds, x < 2 ^ 32) →
      read_adi_pipelined apsel port (reg :: regs)
        ⟨⟨select_pack apsel (reg % 256 / 4) 0, [portIR port]⟩,
          ds.map (resp 2) ++ [resp 2 dl], [], []⟩ = none) ∧
    (∀ (apsel : Nat) (port : Port) (rv : Nat × Nat)
        (rest : List (Nat × Nat)),
      (∃ x ∈ rest, ¬x.1 % 256 / 4 = rv.1 % 256 / 4) →
      write_adi_pipelined apsel port (rv :: rest)
        ⟨⟨select_pack apsel (rv.1 % 256 / 4) 0, [portIR port]⟩,
          [], [], []⟩ = none) ∧
    (∀ (apsel reg dl : Nat) (port : Port) (regs ds : List Nat),
      (∀ r ∈ regs, r % 256 / 4 = reg % 256 / 4) →
      ds.length = regs.length → (∀ x ∈ ds, x < 2 ^ 32) → dl < 2 ^ 32 →
      read_adi_pipelined apsel port (reg :: regs)
        ⟨⟨select_pack apsel (reg % 256 / 4) 0, [portIR port]⟩,
          ds.map (resp 2) ++ [resp 2 dl], [], []⟩ =
        some (Except.ok (ds ++ [dl]),
          ⟨⟨select_pack apsel (reg % 256 / 4) 0, [portIR port]⟩, [], [],
            Ev.writeDR (rp_buf reg) 3 ::
              (regs.map (fun r => Ev.readWriteDR (rp_buf r) 3) ++
                [Ev.readDR 35])⟩)) ∧
    (∀ (apsel : Nat) (port : Port) (rv : Nat × Nat)
        (rest : List (Nat × Nat)),
      (∀ x ∈ rest, x.1 % 256 / 4 = rv.1 % 256 / 4) →
      write_adi_pipelined apsel port (rv :: rest)
        ⟨⟨select_pack apsel (rv.1 % 256 / 4) 0, [portIR port]⟩,
          [], [], []⟩ =
        some (Except.ok (),
          ⟨⟨select_pack apsel (rv.1 % 256 / 4) 0, [portIR port]⟩, [], [],
            (rv :: rest).map (fun x =>
              Ev.writeDR
                (toLEBytes 5
                  (x.2 % 2 ^ 32 * 8 % 2 ^ 64 ||| x.1 % 4 * 2)) 3)⟩)) := by
  refine ⟨fun apsel port m => rfl, fun apsel port m => rfl, ?_, ?_, ?_, ?_⟩
  · intro apsel reg dl port regs ds hmis hlen hds
    have hpan := rp_loop_panic (reg % 256 / 4) regs ds []
      ⟨select_pack apsel (reg % 256 / 4) 0, [portIR port]⟩ [resp 2 dl] []
      [Ev.writeDR (rp_buf reg) 3] hmis hlen hds
    simp [read_adi_pipelined, bank_select, getAdi, write_ir, tWriteDR,
      emit, mBind_eq, mBind, mPure_eq, mPure, hpan]
  · intro apsel port rv rest hmis
    obtain ⟨x, hx, hxm⟩ := hmis
    have hpan := wp_loop_panic (rv.1 % 256 / 4) (rv :: rest)
      ⟨⟨select_pack apsel (rv.1 % 256 / 4) 0, [portIR port]⟩, [], [], []⟩
      ⟨x, List.mem_cons_of_mem rv hx, hxm⟩
    simp [write_adi_pipelined, bank_select, getAdi, write_ir, mBind_eq,
      mBind, mPure_eq, mPure, hpan]
  · intro apsel reg dl port regs ds hbank hlen hds hdl
    have hpo : parse_ack (resp 2 dl) = Except.ok dl :=
      parse_ack_resp_ok dl hdl
    have hrun := rp_loop_run (reg % 256 / 4) regs ds []
      ⟨select_pack apsel (reg % 256 / 4) 0, [portIR port]⟩ [resp 2 dl] []
      [Ev.writeDR (rp_buf reg) 3] hbank hlen hds
    simp [read_adi_pipelined, bank_select, getAdi, write_ir, setLastir,
      tWriteDR, tReadDR, emit, mBind_eq, mBind, mPure_eq, mPure, throwAck,
      hrun, hpo]
  · intro apsel port rv rest hbank
    have hball : ∀ x ∈ rv :: rest, x.1 % 256 / 4 = rv.1 % 256 / 4 :=
      List.forall_mem_cons.mpr ⟨rfl, hbank⟩
    have hrun := wp_loop_run (rv.1 % 256 / 4) (rv :: rest)
      ⟨select_pack apsel (rv.1 % 256 / 4) 0, [portIR port]⟩ [] [] [] hball
    simp [write_adi_pipelined, bank_select, getAdi, write_ir, mBind_eq,
      mBind, mPure_eq, mPure, hrun]

theorem C10_pipelined_partiality_witness :
    read_adi_pipelined 0 Port.AP [] (mkMachine [] []) = none ∧
    write_adi_pipelined 0 Port.AP [] (mkMachine [] []) = none ∧
    (∃ r ∈ [7], ¬r % 256 / 4 = (3 : Nat) % 256 / 4) ∧
    read_adi_pipelined 0 Port.AP [3, 7]
      ⟨⟨select_pack 0 (3 % 256 / 4) 0, [portIR Port.AP]⟩,
        [(0 : Nat)].map (resp 2) ++ [resp 2 0], [], []⟩ = none :=
  ⟨C10_pipelined_partiality.1 0 Port.AP (mkMachine [] []),
    C10_pipelined_partiality.2.1 0 Port.AP (mkMachine [] []),
    by decide,
    C10_pipelined_partiality.2.2.1 0 3 0 Port.AP [7] [0] (by decide)
      (by decide) (by decide)⟩
